import Mathlib

/-!
Verification of the client-side real-time voice pipeline of the
pitext-travel repository. Each JavaScript module relevant to the claims is
shallowly embedded as executable Lean definitions:

* `VoiceStateMachine` — static/js/realtime/voice_state_machine.js
  (first revision in src/unnamed/part_016);
* `AudioPlayer` — static/js/realtime/audio_player.js (src/unnamed/part_015);
* `WebSocketConnection` — static/js/realtime/websocket_connection.js;
* `VADProcessor` — static/js/realtime/vad_processor.js (second revision,
  the one with speechThreshold 0.08 and a 15-frame start requirement);
* `_float32ToPCM16` — shared by audio_capture.js and vad_processor.js.

Callbacks are modelled as traces: each definition returns, next to the new
state, the ordered list of callback invocations the JavaScript code would
perform.  JavaScript numbers are modelled as `ℚ` (every comparison appearing
in the claims holds with a margin far wider than double rounding error) and
`Date.now()` timestamps as `ℕ` milliseconds.
-/

namespace VoiceStateMachine

/-- The four states of `this.States` in voice_state_machine.js. -/
inductive VState
  | WAITING
  | LISTENING
  | PROCESSING
  | SPEAKING
deriving DecidableEq, Repr

/-- One record of `this.stateHistory`: `{from, to, event, timestamp}`. -/
structure HistEntry where
  src : VState
  dst : VState
  event : String
  timestamp : Nat
deriving DecidableEq, Repr

/-- Which callback slots are non-null: the eight `stateHandlers` entries
(`onExit…`/`onEnter…`, indexed here by state) and `onStateChange`. -/
structure Handlers where
  exitRegistered : VState → Bool
  enterRegistered : VState → Bool
  onStateChange : Bool

/-- The mutable fields of a `VoiceStateMachine` instance that the claims
are about. -/
structure SMState where
  currentState : VState
  previousState : Option VState
  stateHistory : List HistEntry
deriving DecidableEq, Repr

/-- Constructor state: `currentState = WAITING`, `previousState = null`,
empty history. -/
def initState : SMState :=
  { currentState := VState.WAITING, previousState := none, stateHistory := [] }

/-- `this.maxHistorySize`. -/
def maxHistorySize : Nat := 50

/-- `this.transitions`, the literal transition table from the constructor:
the OWN properties of the per-state row objects.  The rows are plain
object literals, so a JavaScript lookup `transitions[event]` additionally
finds the inherited `Object.prototype` members; that inherited part of the
lookup is modelled separately by `rowLookup` below. -/
def transitions : VState → String → Option VState
  | VState.WAITING, "speechDetected" => some VState.LISTENING
  | VState.LISTENING, "speechEnded" => some VState.PROCESSING
  | VState.LISTENING, "userInterrupt" => some VState.WAITING
  | VState.PROCESSING, "responseStarted" => some VState.SPEAKING
  | VState.PROCESSING, "processingFailed" => some VState.WAITING
  | VState.SPEAKING, "speechCompleted" => some VState.WAITING
  | VState.SPEAKING, "userInterrupt" => some VState.LISTENING
  | _, _ => none

/-- One observable step performed during `_executeTransition` /
`forceState`, in the order the JavaScript code performs them.  Handler
steps record the value of `this.currentState` at the moment the handler
is invoked. -/
inductive Step
  | exitHandler (handlerState observedCurrent : VState)
  | stateUpdate (newCurrent : VState) (newPrevious : Option VState)
  | historyAppend (entry : HistEntry)
  | enterHandler (handlerState observedCurrent : VState)
  | stateChangeNotify (src dst : VState) (event : String)
deriving DecidableEq, Repr

/-- `while (this.stateHistory.length > this.maxHistorySize) shift()`. -/
def trimHistory (l : List HistEntry) : List HistEntry :=
  if l.length > maxHistorySize then trimHistory l.tail else l
termination_by l.length
decreasing_by simp only [List.length_tail]; omega

/-- `_addToHistory`: push the entry then trim from the front. -/
def addToHistory (h : List HistEntry) (e : HistEntry) : List HistEntry :=
  trimHistory (h ++ [e])

/-- `_executeTransition(fromState, toState, event, data)`: exit handler of
the old state, then the state update, then the history append, then the
enter handler of the new state, then the `onStateChange` call. -/
def executeTransition (hs : Handlers) (s : SMState) (fromS toS : VState)
    (event : String) (ts : Nat) : SMState × List Step :=
  let tr1 : List Step :=
    if hs.exitRegistered fromS then [Step.exitHandler fromS s.currentState] else []
  let s1 : SMState := { s with previousState := some fromS, currentState := toS }
  let tr2 := tr1 ++ [Step.stateUpdate toS (some fromS)]
  let entry : HistEntry := ⟨fromS, toS, event, ts⟩
  let s2 : SMState := { s1 with stateHistory := addToHistory s1.stateHistory entry }
  let tr3 := tr2 ++ [Step.historyAppend entry]
  let tr4 :=
    if hs.enterRegistered toS then tr3 ++ [Step.enterHandler toS s2.currentState] else tr3
  let tr5 :=
    if hs.onStateChange then tr4 ++ [Step.stateChangeNotify fromS toS event] else tr4
  (s2, tr5)

/-- `transition(event, data)` for events resolved against the table's own
properties: returns `false` (no-op) when the event is not defined for the
current state, otherwise executes the transition and returns `true`.  The
behaviour on inherited `Object.prototype` event names is modelled by
`transitionJS` below. -/
def transition (hs : Handlers) (s : SMState) (event : String) (ts : Nat) :
    Bool × SMState × List Step :=
  match transitions s.currentState event with
  | none => (false, s, [])
  | some toState =>
      let r := executeTransition hs s s.currentState toState event ts
      (true, r.1, r.2)

/-- `Object.values(this.States).includes(state)`, together with the
identification of the accepted state string. -/
def stateOfString (str : String) : Option VState :=
  if str = "WAITING" then some VState.WAITING
  else if str = "LISTENING" then some VState.LISTENING
  else if str = "PROCESSING" then some VState.PROCESSING
  else if str = "SPEAKING" then some VState.SPEAKING
  else none

/-- `forceState(state)`: rejects unknown state strings, otherwise updates
the state, appends a `forced` history record and notifies `onStateChange`
(no exit/enter handlers run). -/
def forceState (hs : Handlers) (s : SMState) (str : String) (ts : Nat) :
    SMState × List Step :=
  match stateOfString str with
  | none => (s, [])
  | some st =>
      let s1 : SMState := { s with previousState := some s.currentState, currentState := st }
      let entry : HistEntry := ⟨s.currentState, st, "forced", ts⟩
      let s2 : SMState := { s1 with stateHistory := addToHistory s1.stateHistory entry }
      let tr := [Step.stateUpdate st (some s.currentState), Step.historyAppend entry] ++
        (if hs.onStateChange then [Step.stateChangeNotify s.currentState st "forced"] else [])
      (s2, tr)

/-- A handler configuration with every callback registered. -/
def allHandlers : Handlers :=
  { exitRegistered := fun _ => true, enterRegistered := fun _ => true, onStateChange := true }

end VoiceStateMachine

open VoiceStateMachine in
/-- C1: every accepted transition performs, in this exact order: the old
state's exit handler (when registered), the `currentState`/`previousState`
update, the history append, the new state's enter handler (when
registered), and the `onStateChange` notification; the exit handler
observes `currentState` equal to the old state and the enter handler
observes `currentState` equal to the new state. -/
theorem c1_transition_step_order (hs : Handlers) (s : SMState) (e : String)
    (toS : VState) (ts : Nat) (h : transitions s.currentState e = some toS) :
    (transition hs s e ts).1 = true ∧
    (transition hs s e ts).2.1.currentState = toS ∧
    (transition hs s e ts).2.1.previousState = some s.currentState ∧
    (transition hs s e ts).2.1.stateHistory =
      addToHistory s.stateHistory ⟨s.currentState, toS, e, ts⟩ ∧
    (transition hs s e ts).2.2 =
      (if hs.exitRegistered s.currentState then
        [Step.exitHandler s.currentState s.currentState] else []) ++
      [Step.stateUpdate toS (some s.currentState),
       Step.historyAppend ⟨s.currentState, toS, e, ts⟩] ++
      (if hs.enterRegistered toS then [Step.enterHandler toS toS] else []) ++
      (if hs.onStateChange then [Step.stateChangeNotify s.currentState toS e] else []) := by
  by_cases h1 : hs.exitRegistered s.currentState <;>
    by_cases h2 : hs.enterRegistered toS <;>
      by_cases h3 : hs.onStateChange <;>
        simp [transition, h, executeTransition, h1, h2, h3]

open VoiceStateMachine in
/-- C1 witness: the `WAITING --speechDetected--> LISTENING` transition with
every handler registered. -/
theorem c1_transition_step_order_witness :
    (transition allHandlers initState ("speechDetected") 0).1 = true :=
  (c1_transition_step_order allHandlers initState ("speechDetected")
    VState.LISTENING 0 (by decide)).1

namespace VoiceStateMachine

/-!
The per-state rows of `this.transitions` are plain object literals, so the
JavaScript lookup `transitions[event]` (part_016 line 69) also finds the
inherited members of `Object.prototype`, all of which are truthy: for an
event name such as `toString` the guard `!transitions || !transitions[event]`
does NOT reject, and `_executeTransition` runs with `toState` bound to the
inherited function (or, for `__proto__`, to `Object.prototype`).  It then
runs the exit handler, overwrites `previousState`/`currentState`, appends a
history record — and throws a `TypeError` at `toState.toLowerCase()`
(line 112, outside every try/catch) before the enter-handler lookup and the
`onStateChange` call, so `transition` returns neither `true` nor `false`.
The definitions below model this part of the lookup faithfully. -/

/-- The own property names of `Object.prototype`: the keys a lookup on a
plain object literal finds through the prototype chain.  Every one of them
yields a truthy value (a built-in function, or `Object.prototype` itself
for `__proto__`). -/
def protoKeys : List String :=
  ["constructor", "toString", "toLocaleString", "valueOf", "hasOwnProperty",
   "isPrototypeOf", "propertyIsEnumerable", "__proto__", "__defineGetter__",
   "__defineSetter__", "__lookupGetter__", "__lookupSetter__"]

/-- A JavaScript value that can reach `currentState`: one of the four state
strings, or an inherited `Object.prototype` member picked up by the
transition lookup (identified by its key). -/
inductive JsValue
  | state (v : VState)
  | protoRef (key : String)
deriving DecidableEq, Repr

/-- A `stateHistory` record of the prototype-faithful model; `to` can hold
a non-state value. -/
structure JsHistEntry where
  src : JsValue
  dst : JsValue
  event : String
  timestamp : Nat
deriving DecidableEq, Repr

/-- Machine state of the prototype-faithful model. -/
structure JsSMState where
  currentState : JsValue
  previousState : Option JsValue
  stateHistory : List JsHistEntry
deriving DecidableEq, Repr

/-- Constructor state. -/
def initJsState : JsSMState :=
  { currentState := JsValue.state VState.WAITING, previousState := none, stateHistory := [] }

/-- `while (this.stateHistory.length > this.maxHistorySize) shift()`. -/
def jsTrimHistory (l : List JsHistEntry) : List JsHistEntry :=
  if l.length > maxHistorySize then jsTrimHistory l.tail else l
termination_by l.length
decreasing_by simp only [List.length_tail]; omega

/-- `_addToHistory` of the prototype-faithful model. -/
def jsAddToHistory (h : List JsHistEntry) (e : JsHistEntry) : List JsHistEntry :=
  jsTrimHistory (h ++ [e])

/-- `transitions[fromState][event]` with the prototype chain: an own key of
the row yields its target state; failing that, an inherited
`Object.prototype` member is found (truthy, so it passes the guard);
otherwise the lookup is `undefined` (falsy). -/
def rowLookup (fromState : VState) (event : String) : Option JsValue :=
  match transitions fromState event with
  | some toS => some (JsValue.state toS)
  | none => if event ∈ protoKeys then some (JsValue.protoRef event) else none

/-- How a `transition(event)` call ends: a normal `return false` /
`return true`, or a `TypeError` escaping from `_executeTransition`. -/
inductive TransitionOutcome
  | returnedFalse
  | returnedTrue
  | threwTypeError
deriving DecidableEq, Repr

/-- Observable steps of the prototype-faithful model (as `Step`, but the
updated state and notification payloads can hold non-state values). -/
inductive JsStep
  | exitHandler (handlerState : VState) (observedCurrent : JsValue)
  | stateUpdate (newCurrent : JsValue) (newPrevious : Option JsValue)
  | historyAppend (entry : JsHistEntry)
  | enterHandler (handlerState : VState) (observedCurrent : JsValue)
  | stateChangeNotify (src dst : JsValue) (event : String)
deriving DecidableEq, Repr

/-- `_executeTransition` when `toState` may be an inherited value: exit
handler, state update and history append happen unconditionally; then the
enter-handler lookup evaluates `toState.toLowerCase()`, which for a
non-string `toState` throws a `TypeError` (outside every try/catch), so
the enter handler and `onStateChange` never run and the exception
propagates. -/
def executeTransitionJS (hs : Handlers) (s : JsSMState) (fromS : VState)
    (toV : JsValue) (event : String) (ts : Nat) :
    TransitionOutcome × JsSMState × List JsStep :=
  let tr1 : List JsStep :=
    if hs.exitRegistered fromS then [JsStep.exitHandler fromS s.currentState] else []
  let s1 : JsSMState :=
    { s with previousState := some (JsValue.state fromS), currentState := toV }
  let tr2 := tr1 ++ [JsStep.stateUpdate toV (some (JsValue.state fromS))]
  let entry : JsHistEntry := ⟨JsValue.state fromS, toV, event, ts⟩
  let s2 : JsSMState := { s1 with stateHistory := jsAddToHistory s1.stateHistory entry }
  let tr3 := tr2 ++ [JsStep.historyAppend entry]
  match toV with
  | JsValue.state toS =>
      let tr4 :=
        if hs.enterRegistered toS then tr3 ++ [JsStep.enterHandler toS s2.currentState]
        else tr3
      let tr5 :=
        if hs.onStateChange then
          tr4 ++ [JsStep.stateChangeNotify (JsValue.state fromS) toV event]
        else tr4
      (TransitionOutcome.returnedTrue, s2, tr5)
  | JsValue.protoRef _ => (TransitionOutcome.threwTypeError, s2, tr3)

/-- `transition(event, data)` with the prototype-chain lookup.  From a
corrupted (non-state) `currentState` the outer `this.transitions[fromState]`
lookup is `undefined` (the string form of an inherited function is not a
table key, nor an `Object.prototype` key), so the guard rejects. -/
def transitionJS (hs : Handlers) (s : JsSMState) (event : String) (ts : Nat) :
    TransitionOutcome × JsSMState × List JsStep :=
  match s.currentState with
  | JsValue.protoRef _ => (TransitionOutcome.returnedFalse, s, [])
  | JsValue.state fromS =>
      match rowLookup fromS event with
      | none => (TransitionOutcome.returnedFalse, s, [])
      | some toV => executeTransitionJS hs s fromS toV event ts

end VoiceStateMachine

open VoiceStateMachine in
/-- C2 counterexample: `toString` is not in the transition table for
`WAITING`, yet `transition("toString")` on a fresh machine does not return
`false`: the inherited `Object.prototype.toString` passes the guard, the
exit handler for `WAITING` is invoked, `currentState` is overwritten with
the inherited function, a history record is appended, and a `TypeError` is
thrown — refuting the claimed no-op at this concrete input. -/
theorem c2_counterexample_prototype_key :
    transitions VState.WAITING ("toString") = none ∧
    transitionJS allHandlers initJsState ("toString") 0 =
      (TransitionOutcome.threwTypeError,
       { currentState := JsValue.protoRef ("toString"),
         previousState := some (JsValue.state VState.WAITING),
         stateHistory :=
           [⟨JsValue.state VState.WAITING, JsValue.protoRef ("toString"), "toString", 0⟩] },
       [JsStep.exitHandler VState.WAITING (JsValue.state VState.WAITING),
        JsStep.stateUpdate (JsValue.protoRef ("toString")) (some (JsValue.state VState.WAITING)),
        JsStep.historyAppend
          ⟨JsValue.state VState.WAITING, JsValue.protoRef ("toString"), "toString", 0⟩]) := by
  have ht : transitions VState.WAITING ("toString") = none := by decide
  have hp : ("toString" : String) ∈ protoKeys := by decide
  refine ⟨ht, ?_⟩
  simp [transitionJS, initJsState, rowLookup, ht, hp, executeTransitionJS, jsAddToHistory,
    jsTrimHistory, maxHistorySize, allHandlers]

open VoiceStateMachine in
/-- C2 (amended): for every (state, event) pair where the event is neither
in the transition table row for that state nor an inherited
`Object.prototype` property name, `transition(event)` returns `false`,
leaves `currentState` and the whole machine state (including the history)
unchanged, and invokes no exit handler, no enter handler and no
`onStateChange` callback. -/
theorem c2_amended_invalid_transition_noop (hs : Handlers) (s : JsSMState) (fromS : VState)
    (event : String) (ts : Nat) (hcur : s.currentState = JsValue.state fromS)
    (h1 : transitions fromS event = none) (h2 : event ∉ protoKeys) :
    transitionJS hs s event ts = (TransitionOutcome.returnedFalse, s, []) := by
  simp [transitionJS, hcur, rowLookup, h1, h2]

open VoiceStateMachine in
/-- C2 amended witness: `speechEnded` is not defined in state `WAITING`
and is not an `Object.prototype` key. -/
theorem c2_amended_invalid_transition_noop_witness :
    transitionJS allHandlers initJsState ("speechEnded") 0 =
      (TransitionOutcome.returnedFalse, initJsState, []) :=
  c2_amended_invalid_transition_noop allHandlers initJsState VState.WAITING
    ("speechEnded") 0 rfl (by decide) (by decide)

open VoiceStateMachine in
/-- C10: `forceState` with a string that is none of WAITING, LISTENING,
PROCESSING, SPEAKING leaves `currentState`, `previousState` and the history
unchanged and performs no step (in particular no `onStateChange` call). -/
theorem c10_forceState_invalid_noop (hs : Handlers) (s : SMState) (str : String)
    (ts : Nat) (h1 : str ≠ "WAITING") (h2 : str ≠ "LISTENING")
    (h3 : str ≠ "PROCESSING") (h4 : str ≠ "SPEAKING") :
    forceState hs s str ts = (s, []) := by
  simp [forceState, stateOfString, h1, h2, h3, h4]

open VoiceStateMachine in
/-- C10 witness: forcing the unknown state string `INVALID` is a no-op. -/
theorem c10_forceState_invalid_noop_witness :
    forceState allHandlers initState ("INVALID") 0 = (initState, []) :=
  c10_forceState_invalid_noop allHandlers initState ("INVALID") 0
    (by decide) (by decide) (by decide) (by decide)

namespace AudioPlayer

/-!
audio_player.js.  Decoded audio buffers are opaque (`Nat` identifiers):
decoding (`_base64ToArrayBuffer`, `_pcm16ToFloat32`, `createBuffer`) only
produces the buffer contents, which none of the claims inspect.  The
asynchronous `_processQueue` loop is modelled by its synchronous segments:
`playAudioData`/`processQueueStart` run up to the first `await`
(`source.start(0)` has been called, the loop is suspended in
`_playBuffer`), and `sourceEnded` models the `source.onended` callback
together with the loop continuation that follows it (the 5 ms `_wait` gap
is folded into the continuation; chunks arriving during that gap are
simply `enqueue` actions ordered before the next `ended` action).  The
`onended` that a stopped source fires after `stop()` has already cleared
`currentSource` is not modelled; no claim depends on it. -/

/-- The `AudioPlayer` fields the claims are about. -/
structure PState where
  audioQueue : List Nat
  currentSource : Option Nat
  isPlaying : Bool
  isProcessingQueue : Bool
deriving DecidableEq, Repr

/-- Callback invocations of the player: `onPlaybackStart`, `onPlaybackEnd`,
and `currentSource.stop()` on the underlying source. -/
inductive PEvt
  | playbackStart
  | playbackEnd
  | sourceStopped (buf : Nat)
deriving DecidableEq, Repr

/-- Constructor state. -/
def initPlayer : PState :=
  { audioQueue := [], currentSource := none, isPlaying := false, isProcessingQueue := false }

/-- `_playBuffer` up to `source.start(0)`: fire `onPlaybackStart` when not
already playing, store the source reference, start playback. -/
def playBufferStart (s : PState) (buf : Nat) : PState × List PEvt :=
  if s.isPlaying then ({ s with currentSource := some buf }, [])
  else ({ s with isPlaying := true, currentSource := some buf }, [PEvt.playbackStart])

/-- `_processQueue` up to its first `await`: bail out when already
processing or the queue is empty, otherwise mark processing, shift the
first buffer and start playing it. -/
def processQueueStart (s : PState) : PState × List PEvt :=
  if s.isProcessingQueue then (s, [])
  else
    match s.audioQueue with
    | [] => (s, [])
    | b :: rest => playBufferStart { s with isProcessingQueue := true, audioQueue := rest } b

/-- `playAudioData`: push the decoded buffer onto the queue and kick off
`_processQueue` unless it is already running. -/
def playAudioData (s : PState) (buf : Nat) : PState × List PEvt :=
  let s1 := { s with audioQueue := s.audioQueue ++ [buf] }
  if s1.isProcessingQueue then (s1, []) else processQueueStart s1

/-- `source.onended` plus the resumed `_processQueue` loop iteration:
clear `currentSource`; if the queue still holds a buffer, play it (note
`isPlaying` stays `true`, so no second `onPlaybackStart`); otherwise leave
the loop, clear the flags and fire `onPlaybackEnd`. -/
def sourceEnded (s : PState) : PState × List PEvt :=
  match s.currentSource with
  | none => (s, [])
  | some _ =>
      let s1 := { s with currentSource := none }
      match s1.audioQueue with
      | b :: rest => playBufferStart { s1 with audioQueue := rest } b
      | [] => ({ s1 with isProcessingQueue := false, isPlaying := false }, [PEvt.playbackEnd])

/-- `stop()`: stop the current source (if any), clear it, clear the queue
and reset both flags. -/
def stop (s : PState) : PState × List PEvt :=
  let stoppedEvts : List PEvt :=
    match s.currentSource with
    | some b => [PEvt.sourceStopped b]
    | none => []
  ({ audioQueue := [], currentSource := none, isPlaying := false,
     isProcessingQueue := false }, stoppedEvts)

/-- `isActive()`. -/
def isActive (s : PState) : Bool := s.isPlaying || !s.audioQueue.isEmpty

/-- One event-loop turn affecting the player: a `playAudioData` call or a
source-ended callback. -/
inductive PAction
  | enqueue (buf : Nat)
  | ended
deriving DecidableEq, Repr

/-- Dispatch one action. -/
def pstep (s : PState) : PAction → PState × List PEvt
  | PAction.enqueue b => playAudioData s b
  | PAction.ended => sourceEnded s

/-- Run a sequence of event-loop turns, collecting the callback trace. -/
def runPlayer (s : PState) : List PAction → PState × List PEvt
  | [] => (s, [])
  | a :: rest =>
      let r1 := pstep s a
      let r2 := runPlayer r1.1 rest
      (r2.1, r1.2 ++ r2.2)

/-- Unfolding one action of a run. -/
theorem runPlayer_cons (s : PState) (a : PAction) (rest : List PAction) :
    runPlayer s (a :: rest) =
      ((runPlayer (pstep s a).1 rest).1,
        (pstep s a).2 ++ (runPlayer (pstep s a).1 rest).2) := rfl

/-- Running an appended action list runs the two parts in sequence. -/
theorem runPlayer_append (xs ys : List PAction) (s : PState) :
    runPlayer s (xs ++ ys) =
      ((runPlayer (runPlayer s xs).1 ys).1,
        (runPlayer s xs).2 ++ (runPlayer (runPlayer s xs).1 ys).2) := by
  induction xs generalizing s with
  | nil => simp [runPlayer]
  | cons a xs ih => simp [runPlayer, ih]

/-- A player mid-run: buffer `b` playing, `q` still queued. -/
def midRun (b : Nat) (q : List Nat) : PState :=
  { audioQueue := q, currentSource := some b, isPlaying := true, isProcessingQueue := true }

/-- Enqueuing while a buffer is playing only extends the queue and fires
nothing. -/
theorem runPlayer_enqueue_midRun (rest : List Nat) (q : List Nat) (b : Nat) :
    runPlayer (midRun b q) (rest.map PAction.enqueue) = (midRun b (q ++ rest), []) := by
  induction rest generalizing q with
  | nil => simp [runPlayer]
  | cons x xs ih =>
      simp only [List.map_cons, runPlayer, pstep, playAudioData, midRun]
      simp only [midRun] at ih
      simp [ih, List.append_assoc]

/-- Draining a mid-run player: each source end hands off to the next
queued buffer without firing anything; the final one fires exactly
`onPlaybackEnd`. -/
theorem runPlayer_drain_midRun (q : List Nat) (b : Nat) :
    runPlayer (midRun b q) (List.replicate (q.length + 1) PAction.ended) =
      (initPlayer, [PEvt.playbackEnd]) := by
  induction q generalizing b with
  | nil => simp [runPlayer, pstep, sourceEnded, midRun, initPlayer, List.replicate]
  | cons x xs ih =>
      have step1 : pstep (midRun b (x :: xs)) PAction.ended = (midRun x xs, []) := by
        simp [pstep, sourceEnded, midRun, playBufferStart]
      rw [List.length_cons, List.replicate_succ, runPlayer_cons, step1]
      simp [ih]

end AudioPlayer

open AudioPlayer in
/-- C5: after `stop()` the queue is empty, no source is still scheduled or
playing (the current source, when present, received a `stop()` call and the
reference is cleared), both flags are reset and `isActive()` is `false` —
for every player state, so queued-but-unplayed chunks are discarded. -/
theorem c5_stop_clears_everything (s : PState) :
    (stop s).1.audioQueue = [] ∧
    (stop s).1.currentSource = none ∧
    (stop s).1.isPlaying = false ∧
    (stop s).1.isProcessingQueue = false ∧
    isActive (stop s).1 = false ∧
    (stop s).2 = (s.currentSource.map PEvt.sourceStopped).toList := by
  cases h : s.currentSource <;> simp [stop, isActive, h]

open AudioPlayer in
/-- C6: enqueuing any nonempty sequence of chunks and letting the sources
end one after another produces exactly one `onPlaybackStart` (at the very
beginning) followed by exactly one `onPlaybackEnd` (when the queue drains),
and returns the player to its idle state.  With two chunks queued
back-to-back the actions are `[enqueue, enqueue, ended, ended]`, one single
start…end span covering both chunks. -/
theorem c6_single_playback_span (bufs : List Nat) (h : bufs ≠ []) :
    (runPlayer initPlayer
      (bufs.map PAction.enqueue ++ List.replicate bufs.length PAction.ended)).2 =
      [PEvt.playbackStart, PEvt.playbackEnd] ∧
    (runPlayer initPlayer
      (bufs.map PAction.enqueue ++ List.replicate bufs.length PAction.ended)).1 =
      initPlayer := by
  obtain ⟨b, rest, rfl⟩ : ∃ b rest, bufs = b :: rest := by
    cases bufs with
    | nil => exact absurd rfl h
    | cons b rest => exact ⟨b, rest, rfl⟩
  have h1 : pstep initPlayer (PAction.enqueue b) = (midRun b [], [PEvt.playbackStart]) := by
    simp [pstep, playAudioData, processQueueStart, playBufferStart, initPlayer, midRun]
  have h2 := runPlayer_enqueue_midRun rest [] b
  rw [List.nil_append] at h2
  have hA : runPlayer initPlayer (PAction.enqueue b :: rest.map PAction.enqueue) =
      (midRun b rest, [PEvt.playbackStart]) := by
    rw [runPlayer_cons, h1]
    simp [h2]
  have key : runPlayer initPlayer
      ((b :: rest).map PAction.enqueue ++ List.replicate (b :: rest).length PAction.ended) =
      (initPlayer, [PEvt.playbackStart, PEvt.playbackEnd]) := by
    simp only [List.map_cons, List.length_cons]
    rw [show PAction.enqueue b :: rest.map PAction.enqueue ++
          List.replicate (rest.length + 1) PAction.ended =
        (PAction.enqueue b :: rest.map PAction.enqueue) ++
          List.replicate (rest.length + 1) PAction.ended from rfl,
      runPlayer_append, hA]
    simp [runPlayer_drain_midRun rest b]
  exact ⟨by rw [key], by rw [key]⟩

open AudioPlayer in
/-- C6 witness: the two-chunk back-to-back scenario. -/
theorem c6_single_playback_span_witness :
    (runPlayer initPlayer
      ([1, 2].map PAction.enqueue ++ List.replicate 2 PAction.ended)).2 =
      [PEvt.playbackStart, PEvt.playbackEnd] :=
  (c6_single_playback_span [1, 2] (by decide)).1

namespace WebSocketConnection

/-!
websocket_connection.js.  `connect()` returns a promise whose executor
runs synchronously; asynchronous continuations are the `checkConnection`
poll loop (scheduled every 100 ms), the connection-timeout timer, and the
socket's `connect` / `connect_error` handlers.  The model is a step
machine over these event-loop turns.  Each `connect()` caller gets one
promise, settled at most once (later settles of an already-settled promise
are no-ops, as for JavaScript promises).  Socket `connect`/`connect_error`
events are delivered to the handlers registered by the most recent
`io(...)` call; in every run considered by the claims only one `io(...)`
call ever happens. -/

/-- Settlement state of one `connect()` promise. -/
inductive PromiseStatus
  | pending
  | resolved
  | rejected (msg : String)
deriving DecidableEq, Repr

/-- How a given `connect()` call behaves: `primary` created the socket and
is settled by the socket handlers / timeout; `poller` waits in the
`checkConnection` loop; `immediate` settled synchronously. -/
inductive Role
  | primary
  | poller
  | immediate
deriving DecidableEq, Repr

/-- One `connect()` caller. -/
structure Caller where
  role : Role
  status : PromiseStatus
deriving DecidableEq, Repr

/-- Instance fields of `WebSocketConnection`: `socket` (object created),
`socket.connected`, `connected`, `connecting`, `reconnectAttempts`, and
whether the connection-timeout timer is armed. -/
structure ConnState where
  socket : Bool
  socketConnected : Bool
  connected : Bool
  connecting : Bool
  reconnectAttempts : Nat
  timeoutPending : Bool
deriving DecidableEq, Repr

/-- `this.maxReconnectAttempts`. -/
def maxReconnectAttempts : Nat := 5

/-- Whole-system state: the instance, the promises of all `connect()`
callers in call order, the index of the caller whose resolve/reject the
socket handlers captured, the number of `io(...)` calls performed, and
whether `window.io` is available. -/
structure Sys where
  conn : ConnState
  callers : List Caller
  primaryIdx : Option Nat
  ioCalls : Nat
  ioAvailable : Bool
deriving DecidableEq, Repr

/-- A freshly constructed instance with no callers. -/
def initSys (ioAvail : Bool) : Sys :=
  { conn :=
      { socket := false, socketConnected := false, connected := false,
        connecting := false, reconnectAttempts := 0, timeoutPending := false },
    callers := [], primaryIdx := none, ioCalls := 0, ioAvailable := ioAvail }

/-- Settle the promise of caller `i`, a no-op unless it is still pending. -/
def settleAt (cs : List Caller) (i : Nat) (st : PromiseStatus) : List Caller :=
  match cs.get? i with
  | some c => if c.status = PromiseStatus.pending then cs.set i { c with status := st } else cs
  | none => cs

/-- Settle the promise captured by the socket handlers / timeout timer. -/
def settlePrimary (sys : Sys) (st : PromiseStatus) : Sys :=
  match sys.primaryIdx with
  | some i => { sys with callers := settleAt sys.callers i st }
  | none => sys

/-- One execution of `checkConnection` for waiting caller `i`: resolve if
`this.connected`, reject if no longer `this.connecting`, otherwise keep
waiting (re-schedules itself). -/
def pollCheck (sys : Sys) (i : Nat) : Sys :=
  match sys.callers.get? i with
  | some c =>
      if c.role = Role.poller ∧ c.status = PromiseStatus.pending then
        if sys.conn.connected then
          { sys with callers := settleAt sys.callers i PromiseStatus.resolved }
        else if ¬sys.conn.connecting then
          { sys with callers :=
              settleAt sys.callers i (PromiseStatus.rejected ("Connection attempt failed")) }
        else sys
      else sys
  | none => sys

/-- Event-loop turns that touch the connection. -/
inductive WEvent
  | callConnect
  | pollTick (i : Nat)
  | timeoutFire
  | socketConnect
  | socketConnectError
deriving DecidableEq, Repr

/-- One event-loop turn, following websocket_connection.js:

* `callConnect` — the synchronous body of `connect()`: resolve at once
  when already connected; join the `checkConnection` wait loop (running
  its first check immediately) when already connecting; reject when
  `window.io` is missing; otherwise set `connecting`, arm the timeout and
  call `io(...)` (creating the socket, one more `ioCalls`).
* `pollTick i` — a scheduled `checkConnection` run for caller `i`.
* `timeoutFire` — the connection timeout: clears `connecting` and rejects
  the primary promise.
* `socketConnect` — the socket `connect` handler: clears the timeout,
  sets `connected`, clears `connecting`, resets `reconnectAttempts`,
  resolves the primary promise.
* `socketConnectError` — the `connect_error` handler: clears the timeout,
  clears `connected`/`connecting`, increments `reconnectAttempts`, and
  rejects the primary promise only once the attempts are exhausted. -/
def stepW (sys : Sys) : WEvent → Sys
  | WEvent.callConnect =>
      if sys.conn.connected ∧ sys.conn.socket ∧ sys.conn.socketConnected then
        { sys with callers := sys.callers ++ [⟨Role.immediate, PromiseStatus.resolved⟩] }
      else if sys.conn.connecting then
        pollCheck { sys with callers := sys.callers ++ [⟨Role.poller, PromiseStatus.pending⟩] }
          sys.callers.length
      else if ¬sys.ioAvailable then
        { sys with callers := sys.callers ++
            [⟨Role.immediate, PromiseStatus.rejected ("Socket.IO client library not loaded")⟩] }
      else
        { sys with
          conn :=
            { sys.conn with
              connecting := true, timeoutPending := true,
              socket := true, socketConnected := false },
          callers := sys.callers ++ [⟨Role.primary, PromiseStatus.pending⟩],
          primaryIdx := some sys.callers.length,
          ioCalls := sys.ioCalls + 1 }
  | WEvent.pollTick i => pollCheck sys i
  | WEvent.timeoutFire =>
      if sys.conn.timeoutPending then
        settlePrimary
          { sys with conn := { sys.conn with connecting := false, timeoutPending := false } }
          (PromiseStatus.rejected ("Connection timeout"))
      else sys
  | WEvent.socketConnect =>
      if sys.conn.socket then
        settlePrimary
          { sys with
            conn :=
              { sys.conn with
                timeoutPending := false, connected := true,
                socketConnected := true, connecting := false, reconnectAttempts := 0 } }
          PromiseStatus.resolved
      else sys
  | WEvent.socketConnectError =>
      if sys.conn.socket then
        let ra := sys.conn.reconnectAttempts + 1
        let sys1 :=
          { sys with
            conn :=
              { sys.conn with
                timeoutPending := false, connected := false,
                connecting := false, reconnectAttempts := ra } }
        if ra ≥ maxReconnectAttempts then
          settlePrimary sys1 (PromiseStatus.rejected ("Failed to connect: attempts exhausted"))
        else sys1
      else sys

/-- Run a sequence of event-loop turns. -/
def runW (sys : Sys) : List WEvent → Sys
  | [] => sys
  | e :: rest => runW (stepW sys e) rest

/-- Runs compose over list append. -/
theorem runW_append (xs ys : List WEvent) (sys : Sys) :
    runW sys (xs ++ ys) = runW (runW sys xs) ys := by
  induction xs generalizing sys with
  | nil => rfl
  | cons e xs ih => simp [runW, ih]

/-- `checkConnection` never touches `ioCalls`. -/
theorem pollCheck_ioCalls (sys : Sys) (i : Nat) : (pollCheck sys i).ioCalls = sys.ioCalls := by
  unfold pollCheck
  cases h : sys.callers.get? i with
  | none => simp [h]
  | some c => simp only [h]; split_ifs <;> rfl

/-- Settling the primary promise never touches `ioCalls`. -/
theorem settlePrimary_ioCalls (sys : Sys) (st : PromiseStatus) :
    (settlePrimary sys st).ioCalls = sys.ioCalls := by
  unfold settlePrimary
  cases h : sys.primaryIdx <;> simp [h]

/-- Only `connect()` itself can call `io(...)`: every other event-loop
turn leaves `ioCalls` unchanged. -/
theorem stepW_ioCalls (sys : Sys) (e : WEvent) (he : e ≠ WEvent.callConnect) :
    (stepW sys e).ioCalls = sys.ioCalls := by
  cases e with
  | callConnect => exact absurd rfl he
  | pollTick i => exact pollCheck_ioCalls sys i
  | timeoutFire => simp only [stepW]; split_ifs <;> simp [settlePrimary_ioCalls]
  | socketConnect => simp only [stepW]; split_ifs <;> simp [settlePrimary_ioCalls]
  | socketConnectError => simp only [stepW]; split_ifs <;> simp [settlePrimary_ioCalls]

/-- `ioCalls` is constant along any run free of `connect()` calls. -/
theorem runW_ioCalls (evs : List WEvent) (sys : Sys) (h : WEvent.callConnect ∉ evs) :
    (runW sys evs).ioCalls = sys.ioCalls := by
  induction evs generalizing sys with
  | nil => rfl
  | cons e rest ih =>
      have h1 : e ≠ WEvent.callConnect := fun he => h (by simp [he])
      have h2 : WEvent.callConnect ∉ rest := fun hr => h (List.mem_cons_of_mem _ hr)
      simp only [runW]
      rw [ih _ h2, stepW_ioCalls sys e h1]

end WebSocketConnection

open WebSocketConnection in
/-- C3 counterexample: two concurrent `connect()` calls, then a single
`connect_error` (reconnection attempts remain, so the first promise stays
pending), then one poll tick of the second caller, then the socket
connects.  The connection succeeds and the first call resolves, but the
second call has already rejected — the two calls do not settle together,
refuting the claim at this concrete input. -/
theorem c3_counterexample_not_settled_together :
    ((runW (initSys true) [WEvent.callConnect, WEvent.callConnect,
        WEvent.socketConnectError, WEvent.pollTick 1, WEvent.socketConnect]).callers.map
      Caller.status =
      [PromiseStatus.resolved, PromiseStatus.rejected ("Connection attempt failed")]) ∧
    (runW (initSys true) [WEvent.callConnect, WEvent.callConnect,
        WEvent.socketConnectError, WEvent.pollTick 1, WEvent.socketConnect]).conn.connected =
      true ∧
    (runW (initSys true) [WEvent.callConnect, WEvent.callConnect,
        WEvent.socketConnectError, WEvent.pollTick 1, WEvent.socketConnect]).ioCalls = 1 := by
  decide

open WebSocketConnection in
/-- C3 (amended): a second `connect()` while the first is in flight never
creates a second socket — `io(...)` is called exactly once no matter what
socket events follow.  If the in-flight attempt settles with no
intervening non-final `connect_error`, both calls settle together: both
resolve when the socket connects, both reject when the connection
timeout fires.  After a non-final `connect_error`, however, the second
call rejects while the first remains pending. -/
theorem c3_amended_single_socket (evs : List WEvent) (h : WEvent.callConnect ∉ evs) :
    (runW (initSys true) ([WEvent.callConnect, WEvent.callConnect] ++ evs)).ioCalls = 1 ∧
    ((runW (initSys true) [WEvent.callConnect, WEvent.callConnect,
        WEvent.socketConnect, WEvent.pollTick 1]).callers.map Caller.status =
      [PromiseStatus.resolved, PromiseStatus.resolved]) ∧
    ((runW (initSys true) [WEvent.callConnect, WEvent.callConnect,
        WEvent.timeoutFire, WEvent.pollTick 1]).callers.map Caller.status =
      [PromiseStatus.rejected ("Connection timeout"),
       PromiseStatus.rejected ("Connection attempt failed")]) ∧
    ((runW (initSys true) [WEvent.callConnect, WEvent.callConnect,
        WEvent.socketConnectError, WEvent.pollTick 1]).callers.map Caller.status =
      [PromiseStatus.pending, PromiseStatus.rejected ("Connection attempt failed")]) := by
  refine ⟨?_, by decide, by decide, by decide⟩
  rw [runW_append, runW_ioCalls evs _ h]
  decide

open WebSocketConnection in
/-- C3 amended witness: the success interleaving. -/
theorem c3_amended_single_socket_witness :
    (runW (initSys true) ([WEvent.callConnect, WEvent.callConnect] ++
      [WEvent.socketConnect, WEvent.pollTick 1])).ioCalls = 1 :=
  (c3_amended_single_socket [WEvent.socketConnect, WEvent.pollTick 1] (by decide)).1

open WebSocketConnection in
/-- C8: a `connect()` call on an instance with no socket, not currently
connecting, while `window.io` is unavailable: the promise rejects with the
message naming the missing client library, the instance fields are
untouched (in particular `socket` stays null) and no `io(...)` call is
made. -/
theorem c8_connect_without_io (sys : Sys) (h1 : sys.conn.socket = false)
    (h2 : sys.conn.connecting = false) (h3 : sys.ioAvailable = false) :
    (stepW sys WEvent.callConnect).callers = sys.callers ++
      [⟨Role.immediate, PromiseStatus.rejected ("Socket.IO client library not loaded")⟩] ∧
    (stepW sys WEvent.callConnect).conn = sys.conn ∧
    (stepW sys WEvent.callConnect).ioCalls = sys.ioCalls := by
  simp [stepW, h1, h2, h3]

open WebSocketConnection in
/-- C8 witness: a fresh instance without the Socket.IO library. -/
theorem c8_connect_without_io_witness :
    (stepW (initSys false) WEvent.callConnect).callers = [] ++
      [⟨Role.immediate, PromiseStatus.rejected ("Socket.IO client library not loaded")⟩] :=
  (c8_connect_without_io (initSys false) rfl rfl rfl).1

namespace PCM

/-!
`_float32ToPCM16` as it appears, identically, in audio_capture.js and in
vad_processor.js.  Samples are modelled as `ℚ`: the clamp bound and the
two scale factors are exactly representable as doubles, and storing the
scaled value into an Int16 slot (`DataView.setInt16` in vad_processor.js,
`Int16Array` element assignment in audio_capture.js) truncates the number
toward zero in both cases. -/

/-- Truncation toward zero performed when a JavaScript number is stored
into an Int16 slot. -/
def jsTrunc (q : ℚ) : ℤ := if 0 ≤ q then ⌊q⌋ else ⌈q⌉

/-- One sample of `_float32ToPCM16`:
`s = Math.max(-1, Math.min(1, x)); s < 0 ? s * 0x8000 : s * 0x7FFF`. -/
def float32ToPCM16Sample (x : ℚ) : ℤ :=
  jsTrunc (if max (-1) (min 1 x) < 0 then max (-1) (min 1 x) * 32768
    else max (-1) (min 1 x) * 32767)

/-- `_float32ToPCM16` over a whole buffer. -/
def float32ToPCM16 (xs : List ℚ) : List ℤ := xs.map float32ToPCM16Sample

/-- Every converted sample lies in the Int16 range. -/
theorem float32ToPCM16Sample_range (x : ℚ) :
    -32768 ≤ float32ToPCM16Sample x ∧ float32ToPCM16Sample x ≤ 32767 := by
  unfold float32ToPCM16Sample jsTrunc
  have hs1 : (-1 : ℚ) ≤ max (-1) (min 1 x) := le_max_left _ _
  have hs2 : max (-1) (min 1 x) ≤ 1 := max_le (by norm_num) (min_le_left _ _)
  by_cases hneg : max (-1) (min 1 x) < 0
  · have hv1 : (-32768 : ℚ) ≤ max (-1) (min 1 x) * 32768 := by nlinarith
    have hv2 : max (-1) (min 1 x) * 32768 ≤ 0 := by nlinarith
    have h0 : ¬(0 ≤ max (-1) (min 1 x) * 32768) ∨ max (-1) (min 1 x) * 32768 = 0 := by
      rcases lt_or_eq_of_le hv2 with h | h
      · exact Or.inl (not_le.mpr h)
      · exact Or.inr h
    rcases h0 with h0 | h0
    · simp only [if_pos hneg, if_neg h0]
      constructor
      · have : ((-32768 : ℤ) : ℚ) ≤ max (-1) (min 1 x) * 32768 := by push_cast; exact hv1
        calc (-32768 : ℤ) = ⌈((-32768 : ℤ) : ℚ)⌉ := by rw [Int.ceil_intCast]
          _ ≤ ⌈max (-1) (min 1 x) * 32768⌉ := Int.ceil_le_ceil this
      · have : ⌈max (-1) (min 1 x) * 32768⌉ ≤ (0 : ℤ) :=
          Int.ceil_le.mpr (by push_cast; exact hv2)
        omega
    · rw [if_pos hneg, h0]
      norm_num
  · have hge : 0 ≤ max (-1) (min 1 x) := not_lt.mp hneg
    have hv1 : (0 : ℚ) ≤ max (-1) (min 1 x) * 32767 := by nlinarith
    have hv2 : max (-1) (min 1 x) * 32767 ≤ 32767 := by nlinarith
    rw [if_neg hneg, if_pos hv1]
    constructor
    · have : (0 : ℤ) ≤ ⌊max (-1) (min 1 x) * 32767⌋ :=
        Int.le_floor.mpr (by push_cast; exact hv1)
      omega
    · calc ⌊max (-1) (min 1 x) * 32767⌋ ≤ ⌊(32767 : ℚ)⌋ := Int.floor_le_floor hv2
        _ = 32767 := by norm_num

end PCM

open PCM in
/-- C9: the float-to-PCM16 conversion first clamps each input to [-1, 1]
(converting a sample equals converting its clamped value, and on in-range
inputs the conversion is plain scaling of the input itself, by 0x8000 for
negative and 0x7FFF for non-negative samples); consequently every output
sample of a converted buffer lies in [-32768, 32767], and out-of-range
inputs saturate to the extreme values instead of wrapping around. -/
theorem c9_pcm16_clamped_scaling (xs : List ℚ) (x : ℚ) :
    (∀ y ∈ float32ToPCM16 xs, -32768 ≤ y ∧ y ≤ 32767) ∧
    float32ToPCM16Sample x = float32ToPCM16Sample (max (-1) (min 1 x)) ∧
    (-1 ≤ x → x < 0 → float32ToPCM16Sample x = jsTrunc (x * 32768)) ∧
    (0 ≤ x → x ≤ 1 → float32ToPCM16Sample x = jsTrunc (x * 32767)) ∧
    (1 < x → float32ToPCM16Sample x = 32767) ∧
    (x < -1 → float32ToPCM16Sample x = -32768) := by
  have hs1 : (-1 : ℚ) ≤ max (-1) (min 1 x) := le_max_left _ _
  have hs2 : max (-1) (min 1 x) ≤ 1 := max_le (by norm_num) (min_le_left _ _)
  refine ⟨?_, ?_, ?_, ?_, ?_, ?_⟩
  · intro y hy
    obtain ⟨z, _, rfl⟩ := List.mem_map.mp hy
    exact float32ToPCM16Sample_range z
  · have hclamp : max (-1) (min 1 (max (-1) (min 1 x))) = max (-1) (min 1 x) := by
      rw [min_eq_right hs2, max_eq_right hs1]
    unfold float32ToPCM16Sample
    rw [hclamp]
  · intro h1 h2
    have hclamp : max (-1) (min 1 x) = x := by
      rw [min_eq_right (by linarith), max_eq_right h1]
    unfold float32ToPCM16Sample
    rw [hclamp, if_pos h2]
  · intro h1 h2
    have hclamp : max (-1) (min 1 x) = x := by
      rw [min_eq_right h2, max_eq_right (by linarith)]
    unfold float32ToPCM16Sample
    rw [hclamp, if_neg (not_lt.mpr h1)]
  · intro h1
    have hclamp : max (-1) (min 1 x) = 1 := by
      rw [min_eq_left (le_of_lt h1)]
      exact max_eq_right (by norm_num)
    unfold float32ToPCM16Sample jsTrunc
    rw [hclamp]
    norm_num
  · intro h1
    have hclamp : max (-1) (min 1 x) = -1 := by
      rw [min_eq_right (by linarith), max_eq_left (le_of_lt h1)]
    unfold float32ToPCM16Sample jsTrunc
    rw [hclamp]
    norm_num
    rw [show ((-32768 : ℚ)) = ((-32768 : ℤ) : ℚ) by norm_num]
    exact Int.ceil_intCast _

namespace VADProcessor

/-!
vad_processor.js, second revision (the one the claims cite: default
`speechThreshold` 0.08, a 15-consecutive-frame start requirement and a
1000 ms `minEventInterval`).  `_processFrame` is modelled at the level of
per-frame RMS energies: `_calculateRMS` maps a frame to one number and
every subsequent decision depends on the frame only through that number
(plus the pre-buffer, which only feeds the event payload and is therefore
not modelled).  `Date.now()` is a per-frame input `now : ℕ`; within one
`_processFrame` call both reads of the clock are the same millisecond.
The event payloads (pre-buffered audio, last energy) are abstracted to
the timestamp.  A JavaScript `null` in `silenceStart` is modelled by
`none` (the code also treats a literal 0 timestamp as unset; real clock
values are far larger). -/

/-- The `VADProcessor` fields that influence speech events.  Default
values are those of the constructor with an empty options object. -/
structure VADState where
  speechThreshold : ℚ
  silenceThreshold : ℚ
  vadMode : ℕ
  silenceDuration : ℕ
  minEventInterval : ℕ
  maxEnergyHistory : ℕ
  isSpeaking : Bool
  silenceStart : Option ℕ
  speechFrames : ℕ
  silenceFrames : ℕ
  energyHistory : List ℚ
  noiseFloor : ℚ
  lastSpeechEvent : ℕ
  lastSilenceEvent : ℕ
deriving DecidableEq, Repr

/-- A freshly constructed `VADProcessor` with default options:
`speechThreshold` 0.08, `vadMode` 1, `silenceDuration` 1500 ms,
`minEventInterval` 1000 ms, `maxEnergyHistory` 100, `noiseFloor` 0.01. -/
def initVAD : VADState :=
  { speechThreshold := 8/100, silenceThreshold := 1/100, vadMode := 1,
    silenceDuration := 1500, minEventInterval := 1000, maxEnergyHistory := 100,
    isSpeaking := false, silenceStart := none, speechFrames := 0, silenceFrames := 0,
    energyHistory := [], noiseFloor := 1/100, lastSpeechEvent := 0, lastSilenceEvent := 0 }

/-- `_updateEnergyHistory`: push the energy, drop the oldest entry when
the bound is exceeded, and once at least 20 samples exist recompute the
noise floor as `max(0.005, sorted[Math.floor(length * 0.20)])`.  For
1 ≤ length ≤ 100 the double product `length * 0.20` never crosses the
next integer (0.20 rounds to a double slightly above 1/5), so its floor
equals `length / 5` in `ℕ`. -/
def updateEnergyHistory (s : VADState) (energy : ℚ) : VADState :=
  let hist0 := s.energyHistory ++ [energy]
  let hist := if hist0.length > s.maxEnergyHistory then hist0.tail else hist0
  if hist.length ≥ 20 then
    { s with
      energyHistory := hist,
      noiseFloor := max (5/1000) ((hist.insertionSort (· ≤ ·)).getD (hist.length / 5) 0) }
  else { s with energyHistory := hist }

/-- `_detectSpeech`: adaptive threshold
`max(speechThreshold, noiseFloor * 4.0)` scaled by `1 + vadMode * 0.1`. -/
def detectSpeech (s : VADState) (energy : ℚ) : Prop :=
  max s.speechThreshold (s.noiseFloor * 4) * (1 + (s.vadMode : ℚ) * (1/10)) < energy

instance (s : VADState) (energy : ℚ) : Decidable (detectSpeech s energy) := by
  unfold detectSpeech
  infer_instance

/-- The speech events a frame may emit, carrying their timestamp. -/
inductive VADEvt
  | speechStart (t : Nat)
  | speechEnd (t : Nat)
deriving DecidableEq, Repr

/-- `_handleSpeechStart`: debounced by `minEventInterval` against
`lastSpeechEvent`; when it fires it sets `isSpeaking`, records the time
and invokes `onSpeechStart`. -/
def handleSpeechStart (s : VADState) (now : Nat) : VADState × List VADEvt :=
  if now - s.lastSpeechEvent < s.minEventInterval then (s, [])
  else ({ s with isSpeaking := true, lastSpeechEvent := now }, [VADEvt.speechStart now])

/-- `_handleSpeechEnd`: debounced by `minEventInterval` against
`lastSilenceEvent`; when it fires it clears the speaking state and the
frame counters and invokes `onSpeechEnd`. -/
def handleSpeechEnd (s : VADState) (now : Nat) : VADState × List VADEvt :=
  if now - s.lastSilenceEvent < s.minEventInterval then (s, [])
  else
    ({ s with
       isSpeaking := false, speechFrames := 0, silenceFrames := 0,
       silenceStart := none, lastSilenceEvent := now }, [VADEvt.speechEnd now])

/-- `_processFrame` on a frame of RMS energy `energy` at time `now`:
update the energy history, classify the frame
(`energy > 0.015 && _detectSpeech(energy)`), then either count a speech
frame (triggering `_handleSpeechStart` at 15 consecutive frames when not
yet speaking) or count a silence frame (triggering `_handleSpeechEnd`
after both 1500 ms and 15 frames of silence while speaking, or decaying
the speech-frame count when not speaking). -/
def processFrame (s : VADState) (energy : ℚ) (now : Nat) : VADState × List VADEvt :=
  let s1 := updateEnergyHistory s energy
  if (15 : ℚ)/1000 < energy ∧ detectSpeech s1 energy then
    let s2 :=
      { s1 with
        speechFrames := s1.speechFrames + 1, silenceFrames := 0,
        silenceStart := none }
    if ¬s2.isSpeaking ∧ 15 ≤ s2.speechFrames then handleSpeechStart s2 now
    else (s2, [])
  else
    let s2 := { s1 with silenceFrames := s1.silenceFrames + 1 }
    if s2.isSpeaking then
      let s3 := if s2.silenceStart = none then { s2 with silenceStart := some now } else s2
      if s3.silenceDuration ≤ now - (s3.silenceStart.getD now) ∧ 15 ≤ s3.silenceFrames then
        handleSpeechEnd s3 now
      else (s3, [])
    else
      ({ s2 with speechFrames := s2.speechFrames - 1 }, [])

/-- Process a list of (energy, time) frames, collecting the events. -/
def runFrames (s : VADState) : List (ℚ × Nat) → VADState × List VADEvt
  | [] => (s, [])
  | f :: rest =>
      let r1 := processFrame s f.1 f.2
      let r2 := runFrames r1.1 rest
      (r2.1, r1.2 ++ r2.2)

/-- Unfolding one frame of a run. -/
theorem runFrames_cons (s : VADState) (f : ℚ × Nat) (rest : List (ℚ × Nat)) :
    runFrames s (f :: rest) =
      ((runFrames (processFrame s f.1 f.2).1 rest).1,
        (processFrame s f.1 f.2).2 ++ (runFrames (processFrame s f.1 f.2).1 rest).2) := rfl

/-- Frame runs compose over list append. -/
theorem runFrames_append (xs ys : List (ℚ × Nat)) (s : VADState) :
    runFrames s (xs ++ ys) =
      ((runFrames (runFrames s xs).1 ys).1,
        (runFrames s xs).2 ++ (runFrames (runFrames s xs).1 ys).2) := by
  induction xs generalizing s with
  | nil => simp [runFrames]
  | cons f xs ih => simp [runFrames, ih]

/-- The timestamps of the `onSpeechStart` invocations in a trace. -/
def speechStartTimes : List VADEvt → List Nat
  | [] => []
  | VADEvt.speechStart t :: r => t :: speechStartTimes r
  | VADEvt.speechEnd _ :: r => speechStartTimes r

end VADProcessor

namespace VADProcessor

/-- The detector state after `k` qualifying frames of energy 0.1 from a
fresh start (no event fired yet). -/
def c4state (k : Nat) : VADState :=
  { initVAD with speechFrames := k, energyHistory := List.replicate k ((1:ℚ)/10) }

/-- With the default configuration and noise floor, a frame of RMS energy
0.1 passes both the 0.015 minimum-energy gate and `_detectSpeech`'s
adaptive threshold `max(0.08, 0.01 * 4) * (1 + 1 * 0.1) = 0.088`. -/
theorem c4_cond :
    (15:ℚ)/1000 < 1/10 ∧
      (max ((8:ℚ)/100) ((1:ℚ)/100 * 4)) * (1 + ((1:ℕ):ℚ) * (1/10)) < (1:ℚ)/10 := by
  constructor
  · norm_num
  · have hm : (max ((8:ℚ)/100) ((1:ℚ)/100 * 4)) = 8/100 := max_eq_left (by norm_num)
    rw [hm]
    push_cast
    norm_num

/-- Each of the first 14 qualifying frames only increments the counter and
fires nothing. -/
theorem c4_step (k t : Nat) (hk : k < 14) :
    processFrame (c4state k) ((1:ℚ)/10) t = (c4state (k+1), []) := by
  have h1 : ¬ ((List.replicate k ((1:ℚ)/10) ++ [(1:ℚ)/10]).length > 100) := by
    simp; omega
  have h2 : ¬ ((List.replicate k ((1:ℚ)/10) ++ [(1:ℚ)/10]).length ≥ 20) := by
    simp; omega
  have h4 : ¬ (¬false = true ∧ 15 ≤ k + 1) := by simp; omega
  unfold processFrame updateEnergyHistory c4state initVAD detectSpeech
  dsimp only
  simp only [if_neg h1, if_neg h2]
  rw [if_pos c4_cond, if_neg h4]
  simp [c4state, initVAD, List.replicate_succ']

/-- The 15th qualifying frame reaches the threshold and, with a clock past
the debounce interval, fires `onSpeechStart`. -/
theorem c4_fire (t : Nat) (ht : 1000 ≤ t) :
    processFrame (c4state 14) ((1:ℚ)/10) t =
      ({ c4state 15 with isSpeaking := true, lastSpeechEvent := t }, [VADEvt.speechStart t]) := by
  have h1 : ¬ ((List.replicate 14 ((1:ℚ)/10) ++ [(1:ℚ)/10]).length > 100) := by simp
  have h2 : ¬ ((List.replicate 14 ((1:ℚ)/10) ++ [(1:ℚ)/10]).length ≥ 20) := by simp
  have h4 : (¬false = true ∧ 15 ≤ 14 + 1) := by simp
  have h5 : ¬ (t - 0 < 1000) := by omega
  unfold processFrame updateEnergyHistory c4state initVAD detectSpeech handleSpeechStart
  dsimp only
  simp only [if_neg h1, if_neg h2]
  rw [if_pos c4_cond, if_pos h4]
  rw [if_neg h5]
  simp [c4state, initVAD, List.replicate_succ']

/-- Running `m ≤ 14 - j` qualifying frames from the `j`-frame state. -/
theorem c4_run (m : Nat) (t : Nat) : ∀ j, j + m ≤ 14 →
    runFrames (c4state j) (List.replicate m ((1:ℚ)/10, t)) = (c4state (j+m), []) := by
  induction m with
  | zero => intro j _; simp [runFrames]
  | succ m ih =>
      intro j hj
      rw [List.replicate_succ, runFrames_cons]
      rw [show ((((1:ℚ)/10, t) : ℚ × Nat).1) = (1:ℚ)/10 from rfl,
        show ((((1:ℚ)/10, t) : ℚ × Nat).2) = t from rfl]
      rw [c4_step j t (by omega)]
      have hr := ih (j+1) (by omega)
      have he : j + 1 + m = j + (m + 1) := by omega
      simp only [he] at hr
      rw [hr]
      simp

/-- A fresh detector is the zero-frame state. -/
theorem c4_initVAD : initVAD = c4state 0 := by
  simp [c4state, initVAD]

end VADProcessor

open VADProcessor in
/-- C4: from a freshly constructed detector (speech threshold 0.08, empty
energy history), 15 consecutive complete frames of RMS energy 0.1 at any
clock value `t` at least the 1000 ms debounce interval make `onSpeechStart`
fire exactly once, upon the 15th frame: the full run emits exactly one
`speechStart` event, while the run of the first 14 frames emits nothing
(and event traces only grow frame by frame, so no earlier frame fired). -/
theorem c4_speech_start_on_15th_frame (t : Nat) (ht : 1000 ≤ t) :
    (runFrames initVAD (List.replicate 15 ((1:ℚ)/10, t))).2 = [VADEvt.speechStart t] ∧
    (runFrames initVAD (List.replicate 14 ((1:ℚ)/10, t))).2 = [] := by
  have h14 := c4_run 14 t 0 (by omega)
  norm_num at h14
  rw [c4_initVAD]
  constructor
  · rw [show (15:Nat) = 14 + 1 from rfl, List.replicate_succ']
    rw [runFrames_append, h14]
    rw [runFrames_cons]
    rw [show ((((1:ℚ)/10, t) : ℚ × Nat).1) = (1:ℚ)/10 from rfl,
      show ((((1:ℚ)/10, t) : ℚ × Nat).2) = t from rfl]
    simp only [Prod.fst]
    rw [c4_fire t ht]
    simp [runFrames]
  · rw [h14]

open VADProcessor in
/-- C4 witness: the scenario at clock value 5000 ms. -/
theorem c4_speech_start_on_15th_frame_witness :
    (runFrames initVAD (List.replicate 15 ((1:ℚ)/10, 5000))).2 = [VADEvt.speechStart 5000] :=
  (c4_speech_start_on_15th_frame 5000 (by decide)).1

namespace VADProcessor

/-- `_updateEnergyHistory` never touches the debounce timestamp. -/
theorem updateEnergyHistory_lastSpeechEvent (s : VADState) (e : ℚ) :
    (updateEnergyHistory s e).lastSpeechEvent = s.lastSpeechEvent := by
  unfold updateEnergyHistory
  dsimp only
  split_ifs <;> rfl

/-- `_updateEnergyHistory` never touches the debounce interval. -/
theorem updateEnergyHistory_minEventInterval (s : VADState) (e : ℚ) :
    (updateEnergyHistory s e).minEventInterval = s.minEventInterval := by
  unfold updateEnergyHistory
  dsimp only
  split_ifs <;> rfl

/-- No frame changes the debounce interval. -/
theorem processFrame_minEventInterval (s : VADState) (e : ℚ) (t : Nat) :
    (processFrame s e t).1.minEventInterval = s.minEventInterval := by
  unfold processFrame handleSpeechStart handleSpeechEnd
  dsimp only
  split_ifs <;> simp [updateEnergyHistory_minEventInterval]

/-- A single frame either fires no `onSpeechStart` and keeps
`lastSpeechEvent`, or fires exactly one at the frame's time, which is then
at least `minEventInterval` after the previous `lastSpeechEvent` (that is
the debounce guard) and becomes the new `lastSpeechEvent`. -/
theorem processFrame_speechStart_spec (s : VADState) (e : ℚ) (t : Nat) :
    (speechStartTimes (processFrame s e t).2 = [] ∧
      (processFrame s e t).1.lastSpeechEvent = s.lastSpeechEvent) ∨
    (speechStartTimes (processFrame s e t).2 = [t] ∧
      s.minEventInterval ≤ t - s.lastSpeechEvent ∧
      (processFrame s e t).1.lastSpeechEvent = t) := by
  unfold processFrame handleSpeechStart handleSpeechEnd
  dsimp only
  split_ifs
  all_goals
    first
      | (left; (constructor <;> simp [speechStartTimes, updateEnergyHistory_lastSpeechEvent]);
         done)
      | (right
         refine ⟨by simp [speechStartTimes], ?_, by simp [updateEnergyHistory_lastSpeechEvent]⟩
         simp only [updateEnergyHistory_lastSpeechEvent, updateEnergyHistory_minEventInterval]
           at *
         omega)

/-- `speechStartTimes` distributes over trace concatenation. -/
theorem speechStartTimes_append (xs ys : List VADEvt) :
    speechStartTimes (xs ++ ys) = speechStartTimes xs ++ speechStartTimes ys := by
  induction xs with
  | nil => rfl
  | cons x xs ih => cases x <;> simp [speechStartTimes, ih]

/-- Induction core for the debounce property: an accumulator of already
fired `onSpeechStart` times (all at most `lastSpeechEvent` and pairwise at
least `minEventInterval` apart) stays that way along any frame run. -/
theorem c7_aux (frames : List (ℚ × Nat)) : ∀ (s : VADState) (acc : List Nat),
    0 < s.minEventInterval →
    (∀ x ∈ acc, x ≤ s.lastSpeechEvent) →
    acc.Pairwise (fun a b => a + s.minEventInterval ≤ b) →
    ((acc ++ speechStartTimes (runFrames s frames).2).Pairwise
        (fun a b => a + s.minEventInterval ≤ b) ∧
      ∀ x ∈ acc ++ speechStartTimes (runFrames s frames).2,
        x ≤ (runFrames s frames).1.lastSpeechEvent) := by
  induction frames with
  | nil =>
      intro s acc hI hacc hpw
      simpa [runFrames, speechStartTimes] using ⟨hpw, hacc⟩
  | cons f rest ih =>
      intro s acc hI hacc hpw
      rw [runFrames_cons]
      dsimp only
      rw [speechStartTimes_append]
      have hmi : (processFrame s f.1 f.2).1.minEventInterval = s.minEventInterval :=
        processFrame_minEventInterval s f.1 f.2
      rcases processFrame_speechStart_spec s f.1 f.2 with ⟨he, hl⟩ | ⟨he, hg, hl⟩
      · have hmain := ih (processFrame s f.1 f.2).1 acc
          (by rw [hmi]; exact hI)
          (by intro x hx; rw [hl]; exact hacc x hx)
          (by rw [hmi]; exact hpw)
        rw [hmi] at hmain
        simpa [he] using hmain
      · have hlast : s.lastSpeechEvent + s.minEventInterval ≤ f.2 := by omega
        have hacc2 : ∀ x ∈ acc ++ [f.2], x ≤ (processFrame s f.1 f.2).1.lastSpeechEvent := by
          intro x hx
          rw [hl]
          rcases List.mem_append.mp hx with hx | hx
          · exact le_trans (hacc x hx) (by omega)
          · simp only [List.mem_singleton] at hx
            omega
        have hpw2 : (acc ++ [f.2]).Pairwise
            (fun a b => a + (processFrame s f.1 f.2).1.minEventInterval ≤ b) := by
          rw [hmi]
          apply List.pairwise_append.mpr
          refine ⟨hpw, List.pairwise_singleton _ _, ?_⟩
          intro x hx y hy
          simp only [List.mem_singleton] at hy
          subst hy
          exact le_trans (Nat.add_le_add_right (hacc x hx) _) hlast
        have hmain := ih (processFrame s f.1 f.2).1 (acc ++ [f.2])
          (by rw [hmi]; exact hI) hacc2 hpw2
        rw [hmi] at hmain
        rw [he]
        constructor
        · have := hmain.1
          simpa [List.append_assoc] using this
        · intro x hx
          apply hmain.2
          simp only [List.append_assoc, List.mem_append] at hx ⊢
          tauto

end VADProcessor

open VADProcessor in
/-- C7: speech-start events are debounced.  Along any frame run from any
detector state with a positive `minEventInterval`, any two `onSpeechStart`
invocations are at least `minEventInterval` apart (each firing passes the
guard `now - lastSpeechEvent ≥ minEventInterval` and updates
`lastSpeechEvent`), so at most one `onSpeechStart` fires within any window
shorter than that interval: a second start condition reached sooner is
suppressed. -/
theorem c7_speech_start_debounced (s : VADState) (frames : List (ℚ × Nat))
    (hI : 0 < s.minEventInterval) :
    (speechStartTimes (runFrames s frames).2).Pairwise
      (fun a b => a + s.minEventInterval ≤ b) := by
  have h := c7_aux frames s [] hI (by simp) (by simp)
  simpa using h.1

open VADProcessor in
/-- C7 witness: the run of the C4 scenario on a fresh detector. -/
theorem c7_speech_start_debounced_witness :
    (speechStartTimes (runFrames initVAD (List.replicate 15 ((1:ℚ)/10, 5000))).2).Pairwise
      (fun a b => a + initVAD.minEventInterval ≤ b) :=
  c7_speech_start_debounced initVAD (List.replicate 15 ((1:ℚ)/10, 5000)) (by decide)
